import Mathlib

/-!
Shallow embedding of `src/custom_components/sensor/twentemilieu.py`
(the `WasteApiReader` core: fetch / throttle / parse pipeline and the
query surface over the schedule snapshot).

Network round trips performed by `_do_post_request` are represented by an
environment value (`Network`) holding the outcome of each of the two POST
requests: either a parsed JSON response or a Python-level error
(`requests.exceptions.RequestException` for transport failures).
Exceptions are modelled with `Except PyError`; the distinction between the
typed `WasteApiException` and untyped Python errors (`KeyError`,
`IndexError`, `ValueError`, `TypeError`) is preserved, since `update` only
catches `RequestException`.
-/

/-- Calendar date, as Python `datetime.date` (year, month, day). -/
structure Date where
  year : Nat
  month : Nat
  day : Nat
deriving DecidableEq, Repr

/-- Lexicographic comparison of dates, as Python compares `date` objects
(used by `sorted(schedules, key=lambda s: s.pickup_date)`). -/
def Date.ble (a b : Date) : Bool :=
  decide (a.year < b.year) ||
    (decide (a.year = b.year) && (decide (a.month < b.month) ||
      (decide (a.month = b.month) && decide (a.day ≤ b.day))))

/-- Gregorian leap-year test, as Python `calendar`/`datetime` arithmetic. -/
def isLeap (y : Nat) : Bool :=
  (y % 4 == 0 && y % 100 != 0) || y % 400 == 0

/-- Number of days in a month, as Python `datetime` date validation. -/
def daysInMonth (y m : Nat) : Nat :=
  if m == 2 then (if isLeap y then 29 else 28)
  else if m == 4 || m == 6 || m == 9 || m == 11 then 30
  else 31

/-- Successor date, as Python `date + timedelta(days=1)`
(used by `collection_tomorrow`). -/
def Date.nextDay (d : Date) : Date :=
  if d.day < daysInMonth d.year d.month then ⟨d.year, d.month, d.day + 1⟩
  else if d.month < 12 then ⟨d.year, d.month + 1, 1⟩
  else ⟨d.year + 1, 1, 1⟩

/-- Python-level errors that the fetch path of `WasteApiReader` can raise:
the transport error class caught by `update` (`requests.exceptions.RequestException`),
the typed `WasteApiException` it re-raises, and the untyped builtin errors
(`KeyError`, `IndexError`, `ValueError`, `TypeError`) that dictionary
access, list indexing and `strptime` raise. -/
inductive PyError where
  | requestException
  | wasteApiException (msg : String)
  | keyError (key : String)
  | indexError
  | valueError
  | typeError
deriving DecidableEq, Repr

/-- Parsed JSON values, the result of `response.json()`. -/
inductive Json where
  | null
  | str (s : String)
  | num (n : Int)
  | arr (elems : List Json)
  | obj (fields : List (String × Json))
deriving Repr

/-- Dictionary subscript `j[key]`: `KeyError` when absent, `TypeError` when
`j` is not an object. -/
def Json.getItem (j : Json) (key : String) : Except PyError Json :=
  match j with
  | .obj fields =>
    match fields.find? (fun p => p.1 == key) with
    | some p => .ok p.2
    | none => .error (.keyError key)
  | _ => .error .typeError

/-- List subscript `j[i]`: `IndexError` when out of range, `TypeError` when
`j` is not a list. -/
def Json.getIdx (j : Json) (i : Nat) : Except PyError Json :=
  match j with
  | .arr elems =>
    match elems.get? i with
    | some v => .ok v
    | none => .error .indexError
  | _ => .error .typeError

/-- Iteration `for x in j`: the element list when `j` is a JSON array,
`TypeError` otherwise. -/
def Json.asArr (j : Json) : Except PyError (List Json) :=
  match j with
  | .arr elems => .ok elems
  | _ => .error .typeError

/-- Use of a JSON value as a Python `str` (slicing / `strptime` argument /
the type label stored in a schedule): `TypeError` when not a string. -/
def Json.asStr (j : Json) : Except PyError String :=
  match j with
  | .str s => .ok s
  | _ => .error .typeError

/-- The `WasteSchedule` named tuple: one collection event. -/
structure WasteSchedule where
  trash_type : String
  pickup_date : Date
deriving DecidableEq, Repr

/-- Sort key comparison used by `sorted(schedules, key=lambda s: s.pickup_date)`. -/
def scheduleLE (a b : WasteSchedule) : Bool :=
  Date.ble a.pickup_date b.pickup_date

/-- Same comparison as a relation, for sorting and sortedness statements. -/
def schedRel (a b : WasteSchedule) : Prop := scheduleLE a b = true

instance : DecidableRel schedRel :=
  fun a b => inferInstanceAs (Decidable (scheduleLE a b = true))

/-- Split a character list at each dash, as Python `s.split(sep)` with a
one-character separator (an empty input gives one empty field). -/
def splitDash : List Char → List (List Char)
  | [] => [[]]
  | c :: cs =>
    let rest := splitDash cs
    if c = '-' then [] :: rest
    else
      match rest with
      | r :: rs => (c :: r) :: rs
      | [] => [[c]]

/-- Numeric value of a digit string, most significant digit first. -/
def digitsVal (cs : List Char) : Nat :=
  cs.foldl (fun n c => 10 * n + (c.toNat - 48)) 0

/-- Model of `datetime.strptime(s, date_format).date()` for the fixed
format string of `_parse_calendar` (four-digit year, dash, one- or
two-digit month, dash, one- or two-digit day, nothing left over, the day
must exist in the given month and year, and the year must be at least
`datetime.MINYEAR = 1` — the four-digit `%Y` field already caps it at
`datetime.MAXYEAR = 9999`); `none` where Python raises `ValueError`. -/
def strptimeDate (s : String) : Option Date :=
  match splitDash s.toList with
  | [ys, ms, ds] =>
    if ys.length = 4 ∧ ys.all Char.isDigit
        ∧ 1 ≤ ms.length ∧ ms.length ≤ 2 ∧ ms.all Char.isDigit
        ∧ 1 ≤ ds.length ∧ ds.length ≤ 2 ∧ ds.all Char.isDigit then
      let y := digitsVal ys
      let m := digitsVal ms
      let d := digitsVal ds
      if 1 ≤ y ∧ 1 ≤ m ∧ m ≤ 12 ∧ 1 ≤ d ∧ d ≤ daysInMonth y m then some ⟨y, m, d⟩
      else none
    else none
  | _ => none

/-- Inner loop of `_parse_calendar`: for each entry of
`pickup_type[pickupDates]`, look up `pickup_type[_pickupTypeText]`, parse
the first ten characters of the date string with `strptime`, and append a
`WasteSchedule`. Non-string values (which make Python slicing, `strptime`,
or the later string comparisons fail) are modelled as `TypeError`. -/
def parsePickupDates (pickup_type : Json) : List Json → Except PyError (List WasteSchedule)
  | [] => .ok []
  | d :: rest =>
    match pickup_type.getItem "_pickupTypeText" with
    | .error e => .error e
    | .ok ttJson =>
      match ttJson.asStr with
      | .error e => .error e
      | .ok trash_type =>
        match d.asStr with
        | .error e => .error e
        | .ok dateStr =>
          match strptimeDate (String.mk (dateStr.toList.take 10)) with
          | none => .error .valueError
          | some trash_date =>
            match parsePickupDates pickup_type rest with
            | .error e => .error e
            | .ok more => .ok (⟨trash_type, trash_date⟩ :: more)

/-- Outer loop of `_parse_calendar` over `waste_calendar[dataList]`. -/
def parseCalendarList : List Json → Except PyError (List WasteSchedule)
  | [] => .ok []
  | e :: rest =>
    match e.getItem "pickupDates" with
    | .error err => .error err
    | .ok datesJson =>
      match datesJson.asArr with
      | .error err => .error err
      | .ok dates =>
        match parsePickupDates e dates with
        | .error err => .error err
        | .ok here =>
          match parseCalendarList rest with
          | .error err => .error err
          | .ok more => .ok (here ++ more)

/-- The whole of `_parse_calendar`: collect one record per
(trash type, pickup date) pair, then sort ascending by `pickup_date`.
Python `sorted` is a stable sort, and a stable sort's output is uniquely
determined by the key order and the input order, so it is modelled by the
stable `List.insertionSort` with the reflexive key comparison. Returns
the new value of `self._schedules`. -/
def parse_calendar (waste_calendar : Json) : Except PyError (List WasteSchedule) :=
  match waste_calendar.getItem "dataList" with
  | .error e => .error e
  | .ok dl =>
    match dl.asArr with
    | .error e => .error e
    | .ok entries =>
      match parseCalendarList entries with
      | .error e => .error e
      | .ok schedules => .ok (List.insertionSort schedRel schedules)

/-- Extraction step of `_find_unique_address_id` applied to the
`FetchAdress` response: `response[dataList][0][UniqueId]`. -/
def find_unique_address_id (response : Json) : Except PyError Json :=
  match response.getItem "dataList" with
  | .error e => .error e
  | .ok dl =>
    match dl.getIdx 0 with
    | .error e => .error e
    | .ok first => first.getItem "UniqueId"

/-- Reader state: address identifiers fixed at construction, plus the
mutable `_schedules` snapshot and the `_lastupdated` watermark
(`None` before the first refresh). -/
structure WasteApiReader where
  postcode : String
  housenumber : String
  schedules : List WasteSchedule
  lastupdated : Option Date
deriving DecidableEq, Repr

/-- Constructor `WasteApiReader(postcode, housenumber)`. -/
def WasteApiReader.init (postcode housenumber : String) : WasteApiReader :=
  { postcode := postcode, housenumber := housenumber
    schedules := [], lastupdated := none }

/-- Query `next_collection`: `self._schedules[0] if self._schedules else None`. -/
def WasteApiReader.next_collection (r : WasteApiReader) : Option WasteSchedule :=
  r.schedules.head?

/-- Query `next_collection_of`: first schedule whose `trash_type` equals
the argument, else `None`. -/
def WasteApiReader.next_collection_of (r : WasteApiReader) (type : String) :
    Option WasteSchedule :=
  r.schedules.find? (fun s => s.trash_type == type)

/-- Query `collection_on`: first schedule whose `pickup_date` equals the
argument, else `None`. -/
def WasteApiReader.collection_on (r : WasteApiReader) (d : Date) :
    Option WasteSchedule :=
  r.schedules.find? (fun s => s.pickup_date == d)

/-- Query `collection_today`: `collection_on(datetime.now().date())`; the
current date is passed explicitly. -/
def WasteApiReader.collection_today (r : WasteApiReader) (today : Date) :
    Option WasteSchedule :=
  r.collection_on today

/-- Query `collection_tomorrow`: `collection_on(now + timedelta(days=1))`. -/
def WasteApiReader.collection_tomorrow (r : WasteApiReader) (today : Date) :
    Option WasteSchedule :=
  r.collection_on today.nextDay

/-- Outcomes of the two POST requests issued during one refresh attempt:
the `FetchAdress` response and the `GetCalendar` response, each either
parsed JSON or a Python-level (transport) error. -/
structure Network where
  fetchAddressResponse : Except PyError Json
  calendarResponse : Except PyError Json

/-- Body of the `try` block of `update`: resolve the address, fetch the
calendar, parse it; short-circuits on the first error, returning the
schedules to store on success. -/
def updateBody (net : Network) : Except PyError (List WasteSchedule) :=
  match net.fetchAddressResponse with
  | .error e => .error e
  | .ok addrResponse =>
    match find_unique_address_id addrResponse with
    | .error e => .error e
    | .ok _address_id =>
      match net.calendarResponse with
      | .error e => .error e
      | .ok calResponse => parse_calendar calResponse

/-- Test for the exception class caught by `update`
(`except requests.exceptions.RequestException`). -/
def isRequestException : PyError → Bool
  | .requestException => true
  | _ => false

/-- The `update` method: return immediately when `_lastupdated` is today;
otherwise advance the watermark, run the fetch pipeline, and on a caught
`RequestException` clear `_schedules` and raise `WasteApiException`.
Errors of other classes propagate unchanged (nothing else is caught).
The watermark assignment, which in the source precedes the `try` block and
so holds in every branch, is inlined into each branch here. Returns the
new reader state and the call outcome. -/
def WasteApiReader.update (r : WasteApiReader) (today : Date) (net : Network) :
    WasteApiReader × Except PyError Unit :=
  if r.lastupdated = some today then (r, .ok ())
  else
    match updateBody net with
    | .ok schedules =>
      ({ r with lastupdated := some today, schedules := schedules }, .ok ())
    | .error e =>
      if isRequestException e then
        ({ r with lastupdated := some today, schedules := [] },
          .error (.wasteApiException "Error occurred while fetching data"))
      else ({ r with lastupdated := some today }, .error e)

/-! Helper lemmas about the date order and `find?`. -/

theorem Date.ble_refl (a : Date) : Date.ble a a = true := by
  simp [Date.ble]

theorem Date.ble_trans (a b c : Date) (hab : Date.ble a b = true)
    (hbc : Date.ble b c = true) : Date.ble a c = true := by
  simp only [Date.ble, Bool.or_eq_true, Bool.and_eq_true, decide_eq_true_eq] at *
  omega

theorem Date.ble_total (a b : Date) : (Date.ble a b || Date.ble b a) = true := by
  simp only [Date.ble, Bool.or_eq_true, Bool.and_eq_true, decide_eq_true_eq]
  omega

theorem scheduleLE_refl (a : WasteSchedule) : scheduleLE a a = true :=
  Date.ble_refl a.pickup_date

theorem scheduleLE_trans (a b c : WasteSchedule) (hab : scheduleLE a b = true)
    (hbc : scheduleLE b c = true) : scheduleLE a c = true :=
  Date.ble_trans _ _ _ hab hbc

theorem scheduleLE_total (a b : WasteSchedule) : (scheduleLE a b || scheduleLE b a) = true :=
  Date.ble_total _ _

theorem find?_split {α : Type} (p : α → Bool) :
    ∀ (l : List α) (a : α), l.find? p = some a →
      ∃ l1 l2, l = l1 ++ a :: l2 ∧ ∀ x ∈ l1, p x = false := by
  intro l
  induction l with
  | nil => intro a h; simp [List.find?] at h
  | cons x xs ih =>
    intro a h
    by_cases hx : p x = true
    · rw [List.find?_cons_of_pos _ hx] at h
      cases h
      exact ⟨[], xs, rfl, by simp⟩
    · rw [List.find?_cons_of_neg _ hx] at h
      obtain ⟨l1, l2, hl, hmem⟩ := ih a h
      refine ⟨x :: l1, l2, by simp [hl], ?_⟩
      intro y hy
      rcases List.mem_cons.mp hy with hy | hy
      · subst hy
        simp only [Bool.not_eq_true] at hx
        exact hx
      · exact hmem y hy

theorem find?_min_of_sorted (p : WasteSchedule → Bool) :
    ∀ (l : List WasteSchedule),
      l.Pairwise schedRel →
      ∀ (a : WasteSchedule), l.find? p = some a →
      ∀ b ∈ l, p b = true → scheduleLE a b = true := by
  intro l
  induction l with
  | nil => intro _ a h; simp [List.find?] at h
  | cons x xs ih =>
    intro hs a h b hb hpb
    rw [List.pairwise_cons] at hs
    by_cases hx : p x = true
    · rw [List.find?_cons_of_pos _ hx] at h
      cases h
      rcases List.mem_cons.mp hb with hb | hb
      · subst hb
        exact scheduleLE_refl _
      · exact hs.1 b hb
    · rw [List.find?_cons_of_neg _ hx] at h
      rcases List.mem_cons.mp hb with hb | hb
      · subst hb
        exact absurd hpb hx
      · exact ih hs.2 a h b hb hpb

theorem lastupdated_update (r : WasteApiReader) (today : Date) (net : Network) :
    ((r.update today net).1).lastupdated = some today := by
  unfold WasteApiReader.update
  by_cases h : r.lastupdated = some today
  · simp [h]
  · simp only [h, if_neg, if_false]
    cases hb : updateBody net with
    | ok schedules => simp
    | error e => cases e <;> simp [isRequestException]

/-! Claim theorems. -/

/-- C1: if `last_updated` equals today's date, `update` returns immediately
with no network activity (the result does not depend on the network
environment at all) and leaves the whole reader state unchanged; and after
any `update` call on a given day, a second call on the same day is such a
no-op, so two same-day calls perform at most one fetch. -/
theorem update_throttled_same_day (r : WasteApiReader) (today : Date)
    (net : Network) (h : r.lastupdated = some today) :
    r.update today net = (r, Except.ok ()) ∧
    ∀ (r0 : WasteApiReader) (net1 net2 : Network),
      ((r0.update today net1).1).update today net2
        = ((r0.update today net1).1, Except.ok ()) := by
  constructor
  · simp [WasteApiReader.update, h]
  · intro r0 net1 net2
    have hlast := lastupdated_update r0 today net1
    set r1 := (r0.update today net1).1 with hr1
    simp [WasteApiReader.update, hlast]

/-- Witness for `update_throttled_same_day` at a concrete reader whose
watermark already equals today. -/
theorem update_throttled_same_day_witness :
    ({ postcode := "7511JM", housenumber := "1",
       schedules := [⟨"GREY", ⟨2024, 3, 1⟩⟩],
       lastupdated := some ⟨2024, 3, 2⟩ } : WasteApiReader).lastupdated
        = some ⟨2024, 3, 2⟩ ∧
    (({ postcode := "7511JM", housenumber := "1",
        schedules := [⟨"GREY", ⟨2024, 3, 1⟩⟩],
        lastupdated := some ⟨2024, 3, 2⟩ } : WasteApiReader).update ⟨2024, 3, 2⟩
        ⟨Except.error PyError.requestException, Except.error PyError.requestException⟩
      = ({ postcode := "7511JM", housenumber := "1",
           schedules := [⟨"GREY", ⟨2024, 3, 1⟩⟩],
           lastupdated := some ⟨2024, 3, 2⟩ }, Except.ok ())) :=
  ⟨rfl,
    (update_throttled_same_day _ ⟨2024, 3, 2⟩
      ⟨Except.error PyError.requestException, Except.error PyError.requestException⟩
      rfl).1⟩

/-- C2: a refresh attempt (watermark not yet today) whose fetch pipeline
fails with a transport error (`requests.exceptions.RequestException`)
clears `schedules` to `[]`, raises the typed `WasteApiException`, and
leaves `last_updated` at today's date. -/
theorem update_transport_error (r : WasteApiReader) (today : Date)
    (net : Network) (hday : ¬ r.lastupdated = some today)
    (hfail : updateBody net = Except.error PyError.requestException) :
    r.update today net
      = ({ r with lastupdated := some today, schedules := [] },
         Except.error (PyError.wasteApiException "Error occurred while fetching data")) := by
  simp [WasteApiReader.update, hday, hfail, isRequestException]

/-- Witness for `update_transport_error`: a fresh reader, with the
`FetchAdress` request failing at transport level. -/
theorem update_transport_error_witness :
    ¬ (WasteApiReader.init "7511JM" "1").lastupdated = some ⟨2024, 3, 2⟩ ∧
    updateBody ⟨Except.error PyError.requestException, Except.ok Json.null⟩
      = Except.error PyError.requestException ∧
    (WasteApiReader.init "7511JM" "1").update ⟨2024, 3, 2⟩
        ⟨Except.error PyError.requestException, Except.ok Json.null⟩
      = ({ postcode := "7511JM", housenumber := "1", schedules := [],
           lastupdated := some ⟨2024, 3, 2⟩ },
         Except.error (PyError.wasteApiException "Error occurred while fetching data")) :=
  ⟨by simp [WasteApiReader.init], rfl,
    update_transport_error (WasteApiReader.init "7511JM" "1") ⟨2024, 3, 2⟩
      ⟨Except.error PyError.requestException, Except.ok Json.null⟩
      (by simp [WasteApiReader.init]) rfl⟩

/-- C3: evaluation of `update` at the failing input of the claim. When the
`FetchAdress` response is `{"dataList": []}`, the code raises an untyped
`IndexError` from `response[dataList][0]` (not a named address-not-found
error and not a `WasteApiException` — only `RequestException` is caught),
and `schedules` is left unchanged (here: still the old non-empty
snapshot), not cleared to empty. -/
theorem update_empty_dataList_raises_IndexError :
    ({ postcode := "7511JM", housenumber := "1",
       schedules := [⟨"GREY", ⟨2024, 3, 1⟩⟩],
       lastupdated := none } : WasteApiReader).update ⟨2024, 3, 2⟩
      ⟨Except.ok (Json.obj [("dataList", Json.arr [])]), Except.ok Json.null⟩
    = ({ postcode := "7511JM", housenumber := "1",
         schedules := [⟨"GREY", ⟨2024, 3, 1⟩⟩],
         lastupdated := some ⟨2024, 3, 2⟩ },
       Except.error PyError.indexError) := rfl

/-- C9: evaluation of `update` at failing inputs of the claim. A calendar
payload with a malformed date string makes `strptime` raise an untyped
`ValueError`, and one with a missing `pickupDates` field raises an untyped
`KeyError`; neither is converted into the typed `WasteApiException`
(only `RequestException` is caught), and `schedules` is left unchanged. -/
theorem update_parse_error_raises_untyped :
    ((WasteApiReader.init "7511JM" "1").update ⟨2024, 3, 2⟩
      ⟨Except.ok (Json.obj [("dataList",
          Json.arr [Json.obj [("UniqueId", Json.str "x")]])]),
       Except.ok (Json.obj [("dataList",
          Json.arr [Json.obj [("_pickupTypeText", Json.str "GREY"),
                              ("pickupDates", Json.arr [Json.str "bogus-date"])]])])⟩
      = ({ postcode := "7511JM", housenumber := "1", schedules := [],
           lastupdated := some ⟨2024, 3, 2⟩ },
         Except.error PyError.valueError)) ∧
    ((WasteApiReader.init "7511JM" "1").update ⟨2024, 3, 2⟩
      ⟨Except.ok (Json.obj [("dataList",
          Json.arr [Json.obj [("UniqueId", Json.str "x")]])]),
       Except.ok (Json.obj [("dataList",
          Json.arr [Json.obj [("_pickupTypeText", Json.str "GREY")]])])⟩
      = ({ postcode := "7511JM", housenumber := "1", schedules := [],
           lastupdated := some ⟨2024, 3, 2⟩ },
         Except.error (PyError.keyError "pickupDates"))) :=
  ⟨rfl, rfl⟩

instance : IsTrans WasteSchedule schedRel :=
  ⟨fun a b c hab hbc => scheduleLE_trans a b c hab hbc⟩

instance : IsTotal WasteSchedule schedRel :=
  ⟨fun a b => by simpa [schedRel] using scheduleLE_total a b⟩

theorem parse_calendar_ok_sorted (cal : Json) (l : List WasteSchedule)
    (h : parse_calendar cal = Except.ok l) : l.Pairwise schedRel := by
  unfold parse_calendar at h
  repeat' split at h
  all_goals first
    | exact Except.noConfusion h
    | (cases h; exact List.sorted_insertionSort schedRel _)

theorem updateBody_ok_sorted (net : Network) (l : List WasteSchedule)
    (h : updateBody net = Except.ok l) : l.Pairwise schedRel := by
  unfold updateBody at h
  repeat' split at h
  all_goals first
    | exact Except.noConfusion h
    | exact parse_calendar_ok_sorted _ l h

/-- C4: sortedness of `schedules` (ascending by `pickup_date`) is
preserved by every `update` call: it holds after a successful refresh
(the parser sorts before storing), and in every other case (throttled
call, any failure) the snapshot is either kept or cleared. In particular
it holds after every successful update from a sorted state, the fresh
state included. -/
theorem update_sorted_schedules (r : WasteApiReader) (today : Date)
    (net : Network) (r' : WasteApiReader) (res : Except PyError Unit)
    (hupd : r.update today net = (r', res))
    (hr : r.schedules.Pairwise schedRel) :
    r'.schedules.Pairwise schedRel := by
  unfold WasteApiReader.update at hupd
  by_cases h : r.lastupdated = some today
  · rw [if_pos h] at hupd
    cases hupd
    exact hr
  · rw [if_neg h] at hupd
    cases hb : updateBody net with
    | ok schedules =>
      rw [hb] at hupd
      cases hupd
      exact updateBody_ok_sorted net schedules hb
    | error e =>
      rw [hb] at hupd
      cases e <;> cases hupd <;> first
        | exact List.Pairwise.nil
        | exact hr

/-- Witness for `update_sorted_schedules`: a fresh reader refreshed with a
two-entry calendar arriving out of order. -/
theorem update_sorted_schedules_witness :
    ((WasteApiReader.init "7511JM" "1").update ⟨2024, 3, 2⟩
      ⟨Except.ok (Json.obj [("dataList",
          Json.arr [Json.obj [("UniqueId", Json.str "x")]])]),
       Except.ok (Json.obj [("dataList", Json.arr
          [Json.obj [("_pickupTypeText", Json.str "GREY"),
                     ("pickupDates", Json.arr [Json.str "2024-03-05T00:00:00",
                                               Json.str "2024-03-03T00:00:00"])]])])⟩
      = ({ postcode := "7511JM", housenumber := "1",
           schedules := [⟨"GREY", ⟨2024, 3, 3⟩⟩, ⟨"GREY", ⟨2024, 3, 5⟩⟩],
           lastupdated := some ⟨2024, 3, 2⟩ }, Except.ok ())) ∧
    (WasteApiReader.init "7511JM" "1").schedules.Pairwise schedRel ∧
    ([⟨"GREY", ⟨2024, 3, 3⟩⟩, ⟨"GREY", ⟨2024, 3, 5⟩⟩] : List WasteSchedule).Pairwise schedRel :=
  ⟨rfl, List.Pairwise.nil,
    update_sorted_schedules (WasteApiReader.init "7511JM" "1") ⟨2024, 3, 2⟩
      ⟨Except.ok (Json.obj [("dataList",
          Json.arr [Json.obj [("UniqueId", Json.str "x")]])]),
       Except.ok (Json.obj [("dataList", Json.arr
          [Json.obj [("_pickupTypeText", Json.str "GREY"),
                     ("pickupDates", Json.arr [Json.str "2024-03-05T00:00:00",
                                               Json.str "2024-03-03T00:00:00"])]])])⟩
      { postcode := "7511JM", housenumber := "1",
        schedules := [⟨"GREY", ⟨2024, 3, 3⟩⟩, ⟨"GREY", ⟨2024, 3, 5⟩⟩],
        lastupdated := some ⟨2024, 3, 2⟩ } (Except.ok ()) rfl List.Pairwise.nil⟩

/-- C5: over a sorted snapshot (the invariant of every reachable state),
`next_collection` returns `None` exactly when `schedules` is empty, and
any returned record is in the snapshot with the earliest `pickup_date`. -/
theorem next_collection_spec (r : WasteApiReader)
    (hs : r.schedules.Pairwise schedRel) :
    (r.next_collection = none ↔ r.schedules = []) ∧
    ∀ s, r.next_collection = some s →
      s ∈ r.schedules ∧ ∀ t ∈ r.schedules, scheduleLE s t = true := by
  constructor
  · unfold WasteApiReader.next_collection
    exact List.head?_eq_none_iff
  · intro s hsome
    unfold WasteApiReader.next_collection at hsome
    cases hl : r.schedules with
    | nil => rw [hl] at hsome; exact Option.noConfusion hsome
    | cons x xs =>
      rw [hl] at hsome hs
      cases hsome
      refine ⟨List.mem_cons_self _ _, ?_⟩
      intro t ht
      rcases List.mem_cons.mp ht with ht | ht
      · subst ht
        exact scheduleLE_refl t
      · exact (List.pairwise_cons.mp hs).1 t ht

/-- Witness for `next_collection_spec` on a sorted two-record snapshot. -/
theorem next_collection_spec_witness :
    ([⟨"GREY", ⟨2024, 3, 1⟩⟩, ⟨"PAPER", ⟨2024, 3, 5⟩⟩] : List WasteSchedule).Pairwise schedRel ∧
    (let r : WasteApiReader :=
      { postcode := "7511JM", housenumber := "1",
        schedules := [⟨"GREY", ⟨2024, 3, 1⟩⟩, ⟨"PAPER", ⟨2024, 3, 5⟩⟩],
        lastupdated := none };
     (r.next_collection = none ↔ r.schedules = []) ∧
     ∀ s, r.next_collection = some s →
       s ∈ r.schedules ∧ ∀ t ∈ r.schedules, scheduleLE s t = true) :=
  ⟨by decide,
    next_collection_spec
      { postcode := "7511JM", housenumber := "1",
        schedules := [⟨"GREY", ⟨2024, 3, 1⟩⟩, ⟨"PAPER", ⟨2024, 3, 5⟩⟩],
        lastupdated := none } (by decide)⟩

/-- C6: over a sorted snapshot, `next_collection_of T` returns `None`
exactly when no record has trash type `T`, and otherwise a record of
trash type `T` from the snapshot whose date is no later than that of any
other record of trash type `T`. -/
theorem next_collection_of_spec (r : WasteApiReader) (T : String)
    (hs : r.schedules.Pairwise schedRel) :
    (r.next_collection_of T = none ↔ ∀ s ∈ r.schedules, s.trash_type ≠ T) ∧
    ∀ s, r.next_collection_of T = some s →
      s ∈ r.schedules ∧ s.trash_type = T ∧
      ∀ t ∈ r.schedules, t.trash_type = T → scheduleLE s t = true := by
  constructor
  · unfold WasteApiReader.next_collection_of
    rw [List.find?_eq_none]
    constructor
    · intro h s hsmem heq
      exact (h s hsmem) (by simp [heq])
    · intro h s hsmem
      simpa using h s hsmem
  · intro s hsome
    unfold WasteApiReader.next_collection_of at hsome
    refine ⟨List.mem_of_find?_eq_some hsome, ?_, ?_⟩
    · have := List.find?_some hsome
      simpa using this
    · intro t ht htT
      exact find?_min_of_sorted _ r.schedules hs s hsome t ht (by simp [htT])

/-- Witness for `next_collection_of_spec`: two GREY records and one PAPER
record; the earliest GREY record is returned for GREY, and a type with no
record yields `None`. -/
theorem next_collection_of_spec_witness :
    ([⟨"PAPER", ⟨2024, 3, 1⟩⟩, ⟨"GREY", ⟨2024, 3, 3⟩⟩, ⟨"GREY", ⟨2024, 3, 5⟩⟩] :
        List WasteSchedule).Pairwise schedRel ∧
    (let r : WasteApiReader :=
      { postcode := "7511JM", housenumber := "1",
        schedules := [⟨"PAPER", ⟨2024, 3, 1⟩⟩, ⟨"GREY", ⟨2024, 3, 3⟩⟩,
                      ⟨"GREY", ⟨2024, 3, 5⟩⟩],
        lastupdated := none };
     (r.next_collection_of "GREY" = none ↔ ∀ s ∈ r.schedules, s.trash_type ≠ "GREY") ∧
     ∀ s, r.next_collection_of "GREY" = some s →
       s ∈ r.schedules ∧ s.trash_type = "GREY" ∧
       ∀ t ∈ r.schedules, t.trash_type = "GREY" → scheduleLE s t = true) :=
  ⟨by decide,
    next_collection_of_spec
      { postcode := "7511JM", housenumber := "1",
        schedules := [⟨"PAPER", ⟨2024, 3, 1⟩⟩, ⟨"GREY", ⟨2024, 3, 3⟩⟩,
                      ⟨"GREY", ⟨2024, 3, 5⟩⟩],
        lastupdated := none } "GREY" (by decide)⟩

/-- C7: `collection_on d` returns `None` exactly when no record's
`pickup_date` equals `d`, and any returned record is the first matching
record in sequence order (first-match tie-break: every record strictly
before it in the snapshot has a different date). -/
theorem collection_on_spec (r : WasteApiReader) (d : Date) :
    (r.collection_on d = none ↔ ∀ s ∈ r.schedules, s.pickup_date ≠ d) ∧
    ∀ s, r.collection_on d = some s →
      s.pickup_date = d ∧
      ∃ l1 l2, r.schedules = l1 ++ s :: l2 ∧ ∀ t ∈ l1, t.pickup_date ≠ d := by
  constructor
  · unfold WasteApiReader.collection_on
    rw [List.find?_eq_none]
    constructor
    · intro h s hsmem heq
      exact (h s hsmem) (by simp [heq])
    · intro h s hsmem
      simpa using h s hsmem
  · intro s hsome
    unfold WasteApiReader.collection_on at hsome
    constructor
    · have := List.find?_some hsome
      simpa using this
    · obtain ⟨l1, l2, hl, hmem⟩ := find?_split _ r.schedules s hsome
      refine ⟨l1, l2, hl, ?_⟩
      intro t ht
      have := hmem t ht
      simpa using this

/-- Witness for `collection_on_spec`: two trash types share the date
2024-03-05; the first record in sequence order is the match. -/
theorem collection_on_spec_witness :
    (let r : WasteApiReader :=
      { postcode := "7511JM", housenumber := "1",
        schedules := [⟨"GREY", ⟨2024, 3, 5⟩⟩, ⟨"PAPER", ⟨2024, 3, 5⟩⟩],
        lastupdated := none };
     (r.collection_on ⟨2024, 3, 5⟩ = none ↔
        ∀ s ∈ r.schedules, s.pickup_date ≠ (⟨2024, 3, 5⟩ : Date)) ∧
     ∀ s, r.collection_on ⟨2024, 3, 5⟩ = some s →
       s.pickup_date = (⟨2024, 3, 5⟩ : Date) ∧
       ∃ l1 l2, r.schedules = l1 ++ s :: l2 ∧
         ∀ t ∈ l1, t.pickup_date ≠ (⟨2024, 3, 5⟩ : Date)) ∧
    ({ postcode := "7511JM", housenumber := "1",
       schedules := [⟨"GREY", ⟨2024, 3, 5⟩⟩, ⟨"PAPER", ⟨2024, 3, 5⟩⟩],
       lastupdated := none } : WasteApiReader).collection_on ⟨2024, 3, 5⟩
      = some ⟨"GREY", ⟨2024, 3, 5⟩⟩ :=
  ⟨collection_on_spec
      { postcode := "7511JM", housenumber := "1",
        schedules := [⟨"GREY", ⟨2024, 3, 5⟩⟩, ⟨"PAPER", ⟨2024, 3, 5⟩⟩],
        lastupdated := none } ⟨2024, 3, 5⟩, rfl⟩

/-- C10: a freshly constructed reader has an empty snapshot and no
watermark, and every query (`next_collection`, `next_collection_of` for
any type, `collection_on` for any date, `collection_today` and
`collection_tomorrow` for any current date) returns `None`. -/
theorem init_state_all_queries_none (postcode housenumber T : String)
    (d today : Date) :
    (WasteApiReader.init postcode housenumber).schedules = [] ∧
    (WasteApiReader.init postcode housenumber).lastupdated = none ∧
    (WasteApiReader.init postcode housenumber).next_collection = none ∧
    (WasteApiReader.init postcode housenumber).next_collection_of T = none ∧
    (WasteApiReader.init postcode housenumber).collection_on d = none ∧
    (WasteApiReader.init postcode housenumber).collection_today today = none ∧
    (WasteApiReader.init postcode housenumber).collection_tomorrow today = none :=
  ⟨rfl, rfl, rfl, rfl, rfl, rfl, rfl⟩

/-- JSON encoding of one calendar entry with the given type label and
pickup date strings, for stating the parser contract. -/
def entryJson (tt : String) (dates : List String) : Json :=
  Json.obj [("_pickupTypeText", Json.str tt),
            ("pickupDates", Json.arr (dates.map Json.str))]

/-- JSON encoding of a calendar payload with the given entries. -/
def calendarJson (entries : List (String × List String)) : Json :=
  Json.obj [("dataList", Json.arr (entries.map (fun e => entryJson e.1 e.2)))]

theorem entryJson_typeText (tt : String) (dates : List String) :
    (entryJson tt dates).getItem "_pickupTypeText" = Except.ok (Json.str tt) := rfl

theorem entryJson_pickupDates (tt : String) (dates : List String) :
    (entryJson tt dates).getItem "pickupDates"
      = Except.ok (Json.arr (dates.map Json.str)) := rfl

theorem parsePickupDates_strs (e : Json) (tt : String)
    (he : e.getItem "_pickupTypeText" = Except.ok (Json.str tt))
    (ds : List (String × Date))
    (h : ∀ sd ∈ ds, strptimeDate (String.mk (sd.1.toList.take 10)) = some sd.2) :
    parsePickupDates e ((ds.map Prod.fst).map Json.str)
      = Except.ok (ds.map (fun sd => ⟨tt, sd.2⟩)) := by
  induction ds with
  | nil => rfl
  | cons sd rest ih =>
    have hs := h sd (List.mem_cons_self _ _)
    have ih' := ih (fun x hx => h x (List.mem_cons_of_mem _ hx))
    simp only [List.map_cons, parsePickupDates, he, Json.asStr, hs, ih']

theorem parseCalendarList_entries (entries : List (String × List (String × Date)))
    (h : ∀ e ∈ entries, ∀ sd ∈ e.2,
      strptimeDate (String.mk (sd.1.toList.take 10)) = some sd.2) :
    parseCalendarList ((entries.map (fun e => (e.1, e.2.map Prod.fst))).map
        (fun e => entryJson e.1 e.2))
      = Except.ok (entries.flatMap (fun e => e.2.map (fun sd => ⟨e.1, sd.2⟩))) := by
  induction entries with
  | nil => rfl
  | cons e rest ih =>
    have h1 := h e (List.mem_cons_self _ _)
    have ih' := ih (fun x hx => h x (List.mem_cons_of_mem _ hx))
    have hp := parsePickupDates_strs (entryJson e.1 (e.2.map Prod.fst)) e.1 rfl e.2 h1
    simp only [List.map_cons, parseCalendarList, entryJson_pickupDates, Json.asArr,
      hp, ih', List.flatMap_cons]

theorem parse_calendar_calendarJson (xs : List (String × List String)) :
    parse_calendar (calendarJson xs)
      = match parseCalendarList (xs.map (fun e => entryJson e.1 e.2)) with
        | .error e => .error e
        | .ok schedules => .ok (List.insertionSort schedRel schedules) := rfl

/-- C8: parsing a calendar payload produces one `WasteSchedule` record per
(trash type, pickup date) pair — the parsed list is a permutation (it is
additionally sorted) of the pairs listed in the payload, with each date
string's first ten characters read as a `YYYY-MM-DD` date — and on the
round-trip example payload
`dataList = [{_pickupTypeText: GREY, pickupDates: [2024-03-01T00:00:00]}]`
it yields exactly `[WasteSchedule GREY 2024-03-01]`. -/
theorem parse_calendar_records (entries : List (String × List (String × Date)))
    (h : ∀ e ∈ entries, ∀ sd ∈ e.2,
      strptimeDate (String.mk (sd.1.toList.take 10)) = some sd.2) :
    (∃ l, parse_calendar (calendarJson (entries.map (fun e => (e.1, e.2.map Prod.fst))))
        = Except.ok l ∧
      l.Perm (entries.flatMap (fun e => e.2.map (fun sd => ⟨e.1, sd.2⟩)))) ∧
    parse_calendar (calendarJson [("GREY", ["2024-03-01T00:00:00"])])
      = Except.ok [⟨"GREY", ⟨2024, 3, 1⟩⟩] := by
  constructor
  · rw [parse_calendar_calendarJson, parseCalendarList_entries entries h]
    exact ⟨_, rfl, List.perm_insertionSort schedRel _⟩
  · rfl

/-- Witness for `parse_calendar_records` at the round-trip example entry
list. -/
theorem parse_calendar_records_witness :
    (∀ e ∈ ([("GREY", [("2024-03-01T00:00:00", (⟨2024, 3, 1⟩ : Date))])] :
        List (String × List (String × Date))), ∀ sd ∈ e.2,
      strptimeDate (String.mk (sd.1.toList.take 10)) = some sd.2) ∧
    (∃ l, parse_calendar (calendarJson
        (([("GREY", [("2024-03-01T00:00:00", (⟨2024, 3, 1⟩ : Date))])] :
          List (String × List (String × Date))).map
            (fun e => (e.1, e.2.map Prod.fst))))
        = Except.ok l ∧
      l.Perm (([("GREY", [("2024-03-01T00:00:00", (⟨2024, 3, 1⟩ : Date))])] :
          List (String × List (String × Date))).flatMap
            (fun e => e.2.map (fun sd => ⟨e.1, sd.2⟩)))) ∧
    parse_calendar (calendarJson [("GREY", ["2024-03-01T00:00:00"])])
      = Except.ok [⟨"GREY", ⟨2024, 3, 1⟩⟩] :=
  ⟨by decide,
    (parse_calendar_records
      [("GREY", [("2024-03-01T00:00:00", (⟨2024, 3, 1⟩ : Date))])] (by decide)).1,
    (parse_calendar_records
      [("GREY", [("2024-03-01T00:00:00", (⟨2024, 3, 1⟩ : Date))])] (by decide)).2⟩
